import Mathlib

/-!
Verification of the request/response bridging layer in `src/resemble.py`.

The module exposes two tools over a FastMCP server:
  * `generate_tts(text, voice_uuid, output_format)` — POSTs a synthesis
    request through the helper `make_resemble_request`, base64-decodes the
    `audio_content` field of the JSON response, writes the bytes to
    `output.<output_format>` and returns a confirmation string;
  * `list_voices(page, page_size)` — GETs the voice catalogue and passes the
    parsed JSON body through, or returns `{"error": ...}` on any exception.

The embedding below models the remote side as an oracle
`net : Request → HttpResult` describing what the single HTTP call of an
invocation does (raise while sending, or deliver a response with a status
code and a body whose JSON parse may fail).  Python exceptions are explicit
values, file writes are logged in a list, and the `httpx` / `base64` library
calls are modelled by executable Lean functions.
-/

namespace Resemble

/-- JSON values, as returned by `response.json()` in the Python code. -/
inductive Json where
  | null : Json
  | bool : Bool → Json
  | num : Int → Json
  | str : String → Json
  | arr : List Json → Json
  | obj : List (String × Json) → Json

/-- Python truthiness of a JSON value (`if not response`): `None`, `False`,
`0`, `""`, `[]` and `{}` are falsy, everything else is truthy. -/
def pyTruthy : Json → Bool
  | .null => false
  | .bool b => b
  | .num n => n != 0
  | .str s => !s.isEmpty
  | .arr xs => !xs.isEmpty
  | .obj fs => !fs.isEmpty

/-- Python equality of a JSON value with a given string (`str == value`):
cross-type equality is `False`. -/
def pyEqStr (s : String) : Json → Bool
  | .str t => s == t
  | _ => false

/-- Whether the character list `needle` is an initial segment of `hay`. -/
def charsStartWith : List Char → List Char → Bool
  | [], _ => true
  | _ :: _, [] => false
  | a :: as, b :: bs => a == b && charsStartWith as bs

/-- Whether the character list `needle` occurs contiguously inside `hay`
(Python substring membership `needle in hay` for strings). -/
def charsContain (needle : List Char) (hay : List Char) : Bool :=
  charsStartWith needle hay ||
    match hay with
    | [] => false
    | _ :: rest => charsContain needle rest

/-- Python membership test `key in response` for the values `response.json()`
can produce: key lookup on dicts, element equality on lists, substring test on
strings, and a `TypeError` on the remaining non-container values.  Exception
messages are abbreviated renderings of the CPython text. -/
def pyContains (key : String) : Json → Except String Bool
  | .obj fs => .ok (fs.lookup key).isSome
  | .arr xs => .ok (xs.any (pyEqStr key))
  | .str s => .ok (charsContain key.data s.data)
  | .num _ => .error "TypeError: argument of type int is not iterable"
  | .bool _ => .error "TypeError: argument of type bool is not iterable"
  | .null => .error "TypeError: argument of type NoneType is not iterable"

/-- Python subscript `response[key]` with a string key: dict lookup, or a
`TypeError`/`KeyError` fault on the other shapes. -/
def pySubscript (key : String) : Json → Except String Json
  | .obj fs =>
    match fs.lookup key with
    | some v => .ok v
    | none => .error ("KeyError: " ++ key)
  | .str _ => .error "TypeError: string indices must be integers"
  | .arr _ => .error "TypeError: list indices must be integers or slices, not str"
  | .num _ => .error "TypeError: int object is not subscriptable"
  | .bool _ => .error "TypeError: bool object is not subscriptable"
  | .null => .error "TypeError: NoneType object is not subscriptable"

/-- Value of a base64 alphabet character, `none` for every other character. -/
def b64val (c : Char) : Option Nat :=
  if 65 ≤ c.toNat ∧ c.toNat ≤ 90 then some (c.toNat - 65)
  else if 97 ≤ c.toNat ∧ c.toNat ≤ 122 then some (c.toNat - 97 + 26)
  else if 48 ≤ c.toNat ∧ c.toNat ≤ 57 then some (c.toNat - 48 + 52)
  else if c = '+' then some 62
  else if c = '/' then some 63
  else none

/-- Decode a base64 character stream that has already been filtered down to
alphabet characters and `=`.  Each quad of six-bit values yields three bytes;
a final quad may end in `=` (two bytes) or `==` (one byte); any other
placement of padding, or a length that is not a multiple of four, raises
`binascii.Error` as CPython does. -/
def b64decodeChars : List Char → Except String (List Nat)
  | [] => .ok []
  | a :: b :: c :: d :: rest =>
    match b64val a, b64val b with
    | some va, some vb =>
      if c == '=' then
        if d == '=' && rest.isEmpty then .ok [va * 4 + vb / 16]
        else .error "binascii.Error: Invalid base64-encoded string"
      else
        match b64val c with
        | some vc =>
          if d == '=' then
            if rest.isEmpty then .ok [va * 4 + vb / 16, (vb % 16) * 16 + vc / 4]
            else .error "binascii.Error: Invalid base64-encoded string"
          else
            match b64val d with
            | some vd =>
              match b64decodeChars rest with
              | .ok bs =>
                .ok ((va * 4 + vb / 16) :: ((vb % 16) * 16 + vc / 4) ::
                      ((vc % 4) * 64 + vd) :: bs)
              | .error e => .error e
            | none => .error "binascii.Error: Invalid base64-encoded string"
        | none => .error "binascii.Error: Invalid base64-encoded string"
    | _, _ => .error "binascii.Error: Invalid base64-encoded string"
  | _ => .error "binascii.Error: Incorrect padding"

/-- Model of `base64.b64decode` applied to a `str` argument with the default
`validate=False`: non-ASCII input raises `ValueError`; characters outside the
base64 alphabet (other than `=`) are discarded; the remaining stream is
decoded quad by quad. -/
def b64decode (s : String) : Except String (List Nat) :=
  if s.data.any (fun c => 128 ≤ c.toNat) then
    .error "ValueError: string argument should contain only ASCII characters"
  else
    b64decodeChars (s.data.filter (fun c => (b64val c).isSome || c == '='))

/-- The synthesis endpoint URL (module constant `RESEMBLE_SYNTHESIZE_URL`). -/
def RESEMBLE_SYNTHESIZE_URL : String := "https://f.cluster.resemble.ai/synthesize"

/-- The voice listing endpoint URL (module constant `RESEMBLE_VOICES_URL`). -/
def RESEMBLE_VOICES_URL : String := "https://app.resemble.ai/api/v2/voices"

/-- Module constant `RESEMBLE_API_KEY = os.getenv("RESEMBLE_API_KEY", "Not found")`,
as a function of the process environment. -/
def RESEMBLE_API_KEY (env : String → Option String) : String :=
  (env "RESEMBLE_API_KEY").getD "Not found"

/-- One outbound HTTP request as the code assembles it: method, URL, header
list, optional JSON body (the `json=` argument), query parameters (the
`params=` argument, integer-valued here) and the timeout in seconds. -/
structure Request where
  method : String
  url : String
  headers : List (String × String)
  jsonBody : Option Json
  params : List (String × Int)
  timeout : Nat

/-- What the remote side does with one request: either an exception is raised
while sending (connection error, timeout, ...), carrying the message of
`str(e)`, or a response arrives with a status code and a body whose parse as
JSON (`response.json()`) either succeeds or raises with a message. -/
inductive HttpResult where
  | exn : String → HttpResult
  | resp : Nat → Except String Json → HttpResult

/-- A Python exception as seen by the `except Exception as e` blocks. -/
inductive PyExn where
  | transport : String → PyExn
  | httpStatus : Nat → PyExn
  | jsonDecode : String → PyExn

/-- Python `str(e)` for the exceptions the try blocks can catch.  The
transport and JSON messages come from the oracle; the message of the
`httpx.HTTPStatusError` raised by `raise_for_status` is abbreviated. -/
def exnStr : PyExn → String
  | .transport m => m
  | .httpStatus status => "HTTP status error for status " ++ toString status
  | .jsonDecode m => m

/-- `httpx.Response.is_success`: the statuses `raise_for_status` accepts. -/
def is2xx (status : Nat) : Bool := decide (200 ≤ status) && decide (status < 300)

/-- The shared body of both try blocks: send the request, call
`raise_for_status()`, then parse the body with `response.json()`; the result
is either the parsed JSON or the first exception raised along the way. -/
def tryRequest : HttpResult → Except PyExn Json
  | .exn m => .error (.transport m)
  | .resp status body =>
    if is2xx status then
      match body with
      | .ok j => .ok j
      | .error m => .error (.jsonDecode m)
    else .error (.httpStatus status)

/-- The request `make_resemble_request` builds: bearer auth plus content
headers, the synthesis payload, and a 30 second timeout. -/
def synthesisRequest (api_key text voice_uuid output_format : String) : Request :=
  { method := "POST"
  , url := RESEMBLE_SYNTHESIZE_URL
  , headers :=
      [ ("Authorization", "Bearer " ++ api_key)
      , ("Content-Type", "application/json")
      , ("Accept-Encoding", "gzip") ]
  , jsonBody := some (.obj
      [ ("voice_uuid", .str voice_uuid)
      , ("data", .str text)
      , ("sample_rate", .num 48000)
      , ("output_format", .str output_format) ])
  , params := []
  , timeout := 30 }

/-- The `except Exception` clause of `make_resemble_request`: any exception
becomes `None` (the diagnostic print is outside the model). -/
def handleSynthesisOutcome : Except PyExn Json → Option Json
  | .ok j => some j
  | .error _ => none

/-- `make_resemble_request`: send the synthesis request and return the parsed
JSON, or `None` if anything in the try block raised. -/
def make_resemble_request (net : Request → HttpResult)
    (api_key text voice_uuid output_format : String) : Option Json :=
  handleSynthesisOutcome (tryRequest (net (synthesisRequest api_key text voice_uuid output_format)))

/-- A completed file write: path and the bytes written. -/
structure FileWrite where
  path : String
  contents : List Nat

/-- Outcome of one tool invocation: a returned value or a propagated Python
exception, together with the log of file writes it performed. -/
inductive ToolResult (α : Type) where
  | ok : α → List FileWrite → ToolResult α
  | raised : String → List FileWrite → ToolResult α

/-- The file writes an invocation performed, whether it returned or raised. -/
def ToolResult.writes {α : Type} : ToolResult α → List FileWrite
  | .ok _ ws => ws
  | .raised _ ws => ws

/-- The tool `generate_tts`: call the helper; if the result is falsy or lacks
`audio_content`, return the fixed failure string; otherwise base64-decode the
field (a raised decode error propagates, with no file written), write the
bytes to `output.<output_format>` and return the confirmation string. -/
def generate_tts (net : Request → HttpResult)
    (api_key text voice_uuid output_format : String) : ToolResult String :=
  match make_resemble_request net api_key text voice_uuid output_format with
  | none => .ok "Unable to generate TTS audio." []
  | some response =>
    if pyTruthy response then
      match pyContains "audio_content" response with
      | .error m => .raised m []
      | .ok false => .ok "Unable to generate TTS audio." []
      | .ok true =>
        match pySubscript "audio_content" response with
        | .error m => .raised m []
        | .ok (.str s) =>
          match b64decode s with
          | .error m => .raised m []
          | .ok audio_bytes =>
            .ok ("TTS audio generated and saved as " ++ ("output." ++ output_format))
              [⟨"output." ++ output_format, audio_bytes⟩]
        | .ok _ => .raised "TypeError: argument should be a bytes-like object or ASCII string" []
    else .ok "Unable to generate TTS audio." []

/-- The request `list_voices` builds: bearer auth, the two pagination query
parameters passed verbatim, and a 30 second timeout. -/
def voicesRequest (api_key : String) (page page_size : Int) : Request :=
  { method := "GET"
  , url := RESEMBLE_VOICES_URL
  , headers :=
      [ ("Authorization", "Bearer " ++ api_key)
      , ("Content-Type", "application/json") ]
  , jsonBody := none
  , params := [("page", page), ("page_size", page_size)]
  , timeout := 30 }

/-- The query string `httpx` renders from integer-valued query parameters. -/
def renderQuery : List (String × Int) → String
  | [] => ""
  | [(k, v)] => k ++ "=" ++ toString v
  | (k, v) :: rest => k ++ "=" ++ toString v ++ "&" ++ renderQuery rest

/-- The tool `list_voices`: send the listing request and return the parsed
JSON body unchanged, or, if anything in the try block raised, a dict with the
single key `error` holding `"Error retrieving voices: " + str(e)`. -/
def list_voices (net : Request → HttpResult)
    (api_key : String) (page page_size : Int) : Json :=
  match tryRequest (net (voicesRequest api_key page page_size)) with
  | .ok j => j
  | .error e => .obj [("error", .str ("Error retrieving voices: " ++ exnStr e))]

/-- Whether the `__main__` block prints its missing-credential warning before
`mcp.run`: it does iff the module-level credential string is Python-falsy,
that is, empty. -/
def startupWarns (env : String → Option String) : Bool :=
  (RESEMBLE_API_KEY env).isEmpty

/-- Python evaluates the default for the `voice_uuid` parameter of
`generate_tts` once, in the `def` line, when the module is loaded and the
tool is registered: `str(uuid.uuid4())[:8]`.  `uuidGen n` is the n-th uuid
string the process would draw; the default consumes the registration-time
draw, index 0. -/
def registration_default_voice_uuid (uuidGen : Nat → String) : String :=
  (uuidGen 0).take 8

/-- The default voice id observed by a call that omits `voice_uuid`, as a
function of the index of the call in the process lifetime: it is the
registration-time value, independent of the index. -/
def default_voice_uuid_for_call (uuidGen : Nat → String) (_callIndex : Nat) : String :=
  registration_default_voice_uuid uuidGen

/-- A `generate_tts` invocation that omits `voice_uuid`, at a given call
index. -/
def generate_tts_default_voice (net : Request → HttpResult)
    (uuidGen : Nat → String) (callIndex : Nat)
    (api_key text output_format : String) : ToolResult String :=
  generate_tts net api_key text (default_voice_uuid_for_call uuidGen callIndex) output_format

/-- Remote oracle delivering a well-formed synthesis response whose
`audio_content` is the base64 of the bytes `abc`. -/
def netAudioSample : Request → HttpResult :=
  fun _ => .resp 200 (.ok (.obj [("audio_content", .str "YWJj")]))

/-- Remote oracle raising a timeout on every send. -/
def netTimeout : Request → HttpResult := fun _ => .exn "timeout"

/-- Remote oracle raising a connection error on every send. -/
def netSendFailure : Request → HttpResult := fun _ => .exn "boom"

/-- Remote oracle raising a connection error on the listing path. -/
def netListingDown : Request → HttpResult := fun _ => .exn "connection refused"

/-- Remote oracle answering the listing request with a small JSON body. -/
def netListingOk : Request → HttpResult :=
  fun _ => .resp 200 (.ok (.obj [("items", .arr [])]))

/-- Remote oracle whose synthesis response holds malformed base64 (a single
data character). -/
def netAudioBadPadding : Request → HttpResult :=
  fun _ => .resp 200 (.ok (.obj [("audio_content", .str "A")]))

/-- Remote oracle whose synthesis response holds malformed base64 (two data
characters, incorrect padding). -/
def netAudioBadPaddingTwo : Request → HttpResult :=
  fun _ => .resp 200 (.ok (.obj [("audio_content", .str "ab")]))

/-- A dict represented by a key-value list with a successful lookup is not
empty, hence Python-truthy. -/
theorem lookup_isEmpty_false {k : String} {v : Json} {fs : List (String × Json)}
    (h : fs.lookup k = some v) : fs.isEmpty = false := by
  cases fs with
  | nil => simp [List.lookup] at h
  | cons a l => rfl

/-- C1: for every synthesis call whose remote response is a JSON object
containing a valid base64 string under the key `audio_content`, `generate_tts`
writes exactly one file, named `output.<output_format>`, whose bytes are the
base64-decoded payload, and returns a string that ends with (hence contains)
that exact filename. -/
theorem generate_tts_success_writes_decoded_audio
    (net : Request → HttpResult) (key text voice fmt : String)
    (fields : List (String × Json)) (s : String) (audio : List Nat)
    (h1 : make_resemble_request net key text voice fmt = some (.obj fields))
    (h2 : fields.lookup "audio_content" = some (.str s))
    (h3 : b64decode s = .ok audio) :
    ∃ msg, generate_tts net key text voice fmt =
      .ok (msg ++ ("output." ++ fmt)) [⟨"output." ++ fmt, audio⟩] := by
  refine ⟨"TTS audio generated and saved as ", ?_⟩
  have hne : fields.isEmpty = false := lookup_isEmpty_false h2
  simp [generate_tts, h1, pyTruthy, hne, pyContains, pySubscript, h2, h3]

/-- C1 witness: a concrete successful synthesis call writing the decoded
bytes of `YWJj`. -/
theorem generate_tts_success_writes_decoded_audio_witness :
    ∃ msg, generate_tts netAudioSample "key" "hello" "v1" "mp3" =
      .ok (msg ++ ("output." ++ "mp3")) [⟨"output." ++ "mp3", [97, 98, 99]⟩] :=
  generate_tts_success_writes_decoded_audio netAudioSample "key" "hello" "v1" "mp3"
    [("audio_content", .str "YWJj")] "YWJj" [97, 98, 99] rfl rfl rfl

/-- C2: whenever the helper yields no result (transport failure, timeout,
non-2xx) or yields an object without the `audio_content` field, `generate_tts`
returns exactly the string `Unable to generate TTS audio.` and performs no
file write; both cases produce this same caller-visible result. -/
theorem generate_tts_failure_returns_unable_no_write
    (net : Request → HttpResult) (key text voice fmt : String)
    (h : make_resemble_request net key text voice fmt = none ∨
         ∃ fields, make_resemble_request net key text voice fmt = some (.obj fields) ∧
           fields.lookup "audio_content" = none) :
    generate_tts net key text voice fmt = .ok "Unable to generate TTS audio." [] := by
  rcases h with h | ⟨fields, h1, h2⟩
  · simp [generate_tts, h]
  · cases fields with
    | nil => simp [generate_tts, h1, pyTruthy]
    | cons a l => simp [generate_tts, h1, pyTruthy, pyContains, h2]

/-- C2 witness: a timed-out synthesis call returns the failure string with no
file write. -/
theorem generate_tts_failure_returns_unable_no_write_witness :
    generate_tts netTimeout "key" "hello" "v1" "mp3" =
      .ok "Unable to generate TTS audio." [] :=
  generate_tts_failure_returns_unable_no_write netTimeout "key" "hello" "v1" "mp3" (Or.inl rfl)

/-- C3: every exception the synthesis try block can see — raised while
sending, raised by `raise_for_status` on a non-2xx status, or raised while
parsing the body as JSON — is swallowed inside `make_resemble_request`, which
returns `None` instead of propagating it. -/
theorem make_resemble_request_swallows_exceptions
    (net : Request → HttpResult) (key text voice fmt : String)
    (h : (∃ m, net (synthesisRequest key text voice fmt) = .exn m) ∨
         (∃ status m, net (synthesisRequest key text voice fmt) = .resp status (.error m)) ∨
         (∃ status body, net (synthesisRequest key text voice fmt) = .resp status body ∧
            is2xx status = false)) :
    make_resemble_request net key text voice fmt = none := by
  rcases h with ⟨m, hm⟩ | ⟨status, m, hm⟩ | ⟨status, body, hm, hs⟩
  · simp [make_resemble_request, hm, tryRequest, handleSynthesisOutcome]
  · cases hst : is2xx status <;>
      simp [make_resemble_request, hm, tryRequest, handleSynthesisOutcome, hst]
  · simp [make_resemble_request, hm, tryRequest, handleSynthesisOutcome, hs]

/-- C3 witness: a raised send on the synthesis path yields `None` from the
helper. -/
theorem make_resemble_request_swallows_exceptions_witness :
    make_resemble_request netSendFailure "key" "hello" "v1" "mp3" = none :=
  make_resemble_request_swallows_exceptions netSendFailure "key" "hello" "v1" "mp3"
    (Or.inl ⟨"boom", rfl⟩)

/-- C4: every synthesis call sends to the synthesis URL a request carrying a
`Bearer` authorization header, a JSON body with exactly the fields
`voice_uuid`, `data`, `sample_rate` fixed at 48000, and `output_format`, and a
30 second timeout; `make_resemble_request` applies the oracle to exactly this
request. -/
theorem synthesis_request_shape
    (net : Request → HttpResult) (key text voice fmt : String) :
    ("Authorization", "Bearer " ++ key) ∈ (synthesisRequest key text voice fmt).headers ∧
    (synthesisRequest key text voice fmt).jsonBody =
      some (.obj [("voice_uuid", .str voice), ("data", .str text),
                  ("sample_rate", .num 48000), ("output_format", .str fmt)]) ∧
    (synthesisRequest key text voice fmt).timeout = 30 ∧
    (synthesisRequest key text voice fmt).url = RESEMBLE_SYNTHESIZE_URL ∧
    make_resemble_request net key text voice fmt =
      handleSynthesisOutcome (tryRequest (net (synthesisRequest key text voice fmt))) := by
  refine ⟨?_, rfl, rfl, rfl, rfl⟩
  simp [synthesisRequest]

/-- C5: every failing listing call returns (never raises) a mapping with
exactly one key, `error`, whose value is a non-empty string. -/
theorem list_voices_failure_single_error_key
    (net : Request → HttpResult) (key : String) (page psz : Int) (e : PyExn)
    (h : tryRequest (net (voicesRequest key page psz)) = .error e) :
    ∃ msg, list_voices net key page psz = .obj [("error", .str msg)] ∧ msg ≠ "" := by
  refine ⟨"Error retrieving voices: " ++ exnStr e, ?_, ?_⟩
  · simp [list_voices, h]
  · intro hc
    have hlen := congrArg String.length hc
    rw [String.length_append, show ("Error retrieving voices: ").length = 25 from rfl,
        show ("" : String).length = 0 from rfl] at hlen
    omega

/-- C5 witness: a listing call whose send raises returns a singleton `error`
mapping with a non-empty message. -/
theorem list_voices_failure_single_error_key_witness :
    ∃ msg, list_voices netListingDown "key" 1 10 = .obj [("error", .str msg)] ∧ msg ≠ "" :=
  list_voices_failure_single_error_key netListingDown "key" 1 10
    (.transport "connection refused") rfl

/-- C6: every listing call forwards `page` and `page_size` verbatim as query
parameters — with no client-side validation for zero, negative or large
values, since `page` and `psz` range over all integers — and on success the
parsed JSON response body is returned unmodified. -/
theorem list_voices_params_verbatim_passthrough
    (net : Request → HttpResult) (key : String) (page psz : Int) (j : Json)
    (h : tryRequest (net (voicesRequest key page psz)) = .ok j) :
    (voicesRequest key page psz).params = [("page", page), ("page_size", psz)] ∧
    renderQuery (voicesRequest key page psz).params =
      "page=" ++ toString page ++ "&page_size=" ++ toString psz ∧
    list_voices net key page psz = j := by
  refine ⟨rfl, ?_, ?_⟩
  · show "page" ++ "=" ++ toString page ++ "&" ++ ("page_size" ++ "=" ++ toString psz) =
      "page=" ++ toString page ++ "&page_size=" ++ toString psz
    rw [show ("page" ++ "=" : String) = "page=" from rfl,
        show ("page_size" ++ "=" : String) = "page_size=" from rfl,
        String.append_assoc ("page=" ++ toString page) "&" ("page_size=" ++ toString psz),
        ← String.append_assoc "&" "page_size=" (toString psz),
        show ("&" ++ "page_size=" : String) = "&page_size=" from rfl,
        ← String.append_assoc ("page=" ++ toString page) "&page_size=" (toString psz)]
  · simp [list_voices, h]

/-- C6 witness: boundary pagination values, page 0 and page size -5, are
forwarded verbatim and the response body is passed through unchanged. -/
theorem list_voices_params_verbatim_passthrough_witness :
    (voicesRequest "key" 0 (-5)).params = [("page", 0), ("page_size", -5)] ∧
    renderQuery (voicesRequest "key" 0 (-5)).params =
      "page=" ++ toString (0 : Int) ++ "&page_size=" ++ toString (-5 : Int) ∧
    list_voices netListingOk "key" 0 (-5) = .obj [("items", .arr [])] :=
  list_voices_params_verbatim_passthrough netListingOk "key" 0 (-5)
    (.obj [("items", .arr [])]) rfl

/-- C7: when the remote response carries malformed base64 under
`audio_content`, the decode error is not handled inside `generate_tts`: the
invocation ends in a propagated fault rather than a returned value. -/
theorem generate_tts_bad_base64_raises
    (net : Request → HttpResult) (key text voice fmt : String)
    (fields : List (String × Json)) (s m : String)
    (h1 : make_resemble_request net key text voice fmt = some (.obj fields))
    (h2 : fields.lookup "audio_content" = some (.str s))
    (h3 : b64decode s = .error m) :
    generate_tts net key text voice fmt = .raised m [] := by
  have hne : fields.isEmpty = false := lookup_isEmpty_false h2
  simp [generate_tts, h1, pyTruthy, hne, pyContains, pySubscript, h2, h3]

/-- C7 witness: a one-character base64 payload makes `generate_tts` raise the
incorrect-padding error. -/
theorem generate_tts_bad_base64_raises_witness :
    generate_tts netAudioBadPadding "key" "hello" "v1" "mp3" =
      .raised "binascii.Error: Incorrect padding" [] :=
  generate_tts_bad_base64_raises netAudioBadPadding "key" "hello" "v1" "mp3"
    [("audio_content", .str "A")] "A" "binascii.Error: Incorrect padding" rfl rfl rfl

/-- C8: the default voice identifier of `generate_tts` is fixed at
registration time; any two invocations that omit `voice_uuid` observe the same
default id and produce the same result against the same remote oracle,
whatever their call indices. -/
theorem default_voice_uuid_fixed_across_calls
    (uuidGen : Nat → String) (i j : Nat) (net : Request → HttpResult)
    (key text fmt : String) :
    default_voice_uuid_for_call uuidGen i = default_voice_uuid_for_call uuidGen j ∧
    generate_tts_default_voice net uuidGen i key text fmt =
      generate_tts_default_voice net uuidGen j key text fmt :=
  ⟨rfl, rfl⟩

/-- C9 evaluation: with the credential variable absent from the environment,
the module-level credential becomes the sentinel `Not found`, which is truthy,
so the `__main__` block prints no missing-credential warning before serving —
against the claim that a warning is printed in this case. -/
theorem missing_api_key_sentinel_and_no_warning :
    RESEMBLE_API_KEY (fun _ => none) = "Not found" ∧
    startupWarns (fun _ => none) = false :=
  ⟨rfl, rfl⟩

/-- C10: when base64-decoding of the `audio_content` value raises, the
invocation performs no file write: decoding completes before the output file
is opened. -/
theorem generate_tts_bad_base64_no_write
    (net : Request → HttpResult) (key text voice fmt : String)
    (fields : List (String × Json)) (s m : String)
    (h1 : make_resemble_request net key text voice fmt = some (.obj fields))
    (h2 : fields.lookup "audio_content" = some (.str s))
    (h3 : b64decode s = .error m) :
    (generate_tts net key text voice fmt).writes = [] := by
  have hne : fields.isEmpty = false := lookup_isEmpty_false h2
  simp [generate_tts, ToolResult.writes, h1, pyTruthy, hne, pyContains, pySubscript, h2, h3]

/-- C10 witness: a two-character base64 payload makes the invocation raise
with an empty write log. -/
theorem generate_tts_bad_base64_no_write_witness :
    (generate_tts netAudioBadPaddingTwo "key" "hello" "v1" "mp3").writes = [] :=
  generate_tts_bad_base64_no_write netAudioBadPaddingTwo "key" "hello" "v1" "mp3"
    [("audio_content", .str "ab")] "ab" "binascii.Error: Incorrect padding" rfl rfl rfl

end Resemble
